import Mathlib

/-!
# Enum / numeric safety traits of luabind

A shallow embedding of `luabind/detail/scoped_enum_helper.hpp`; the ownership
policies exercised by `test/test_policies.cpp` follow in `luabind.test_policies`.

The header is a family of compile-time metafunctions over C++ types.  Types are
embedded as data (`CType`), a metafunction `m<A, B>::value` becomes a Boolean
function `m A B`, and the choice between partial specialisations guarded by
`std::enable_if_t` becomes an `if` on the guard.  Values of integral and
enumeration types are mathematical integers lying in the range of the type;
an integer conversion reduces modulo `2 ^ width`.  Values of floating types are
restricted to the integer-valued ones (every floating value this header
produces comes from an integer), so they are integers as well.

The data model is that of the LP64 x86-64 ABI: `int` is 32 bits wide, `float`,
`double` and `long double` occupy 4, 8 and 16 bytes and carry 24, 53 and 64
significand bits.  A conversion of a floating value to an integral type is
undefined when the value is out of range; it is embedded as `none`, and inside
the initialiser of a `constexpr` member it makes the member ill-formed.
-/

namespace luabind
namespace detail

/-! ## C++ types -/

/-- Widths of the fixed-width integer types `intK_t` / `uintK_t`. -/
inductive Width
  | w8
  | w16
  | w32
  | w64
  deriving DecidableEq, Repr

/-- Number of bits of a width. -/
def Width.bits : Width → Nat
  | .w8 => 8
  | .w16 => 16
  | .w32 => 32
  | .w64 => 64

/-- Number of bytes of a width (`sizeof`). -/
def Width.bytes : Width → Nat
  | .w8 => 1
  | .w16 => 2
  | .w32 => 4
  | .w64 => 8

/-- An integral type: its width and whether it is signed. -/
structure IntTy where
  width : Width
  signed : Bool
  deriving DecidableEq, Repr

/-- The three standard floating types. -/
inductive FloatTy
  | float
  | double
  | long_double
  deriving DecidableEq, Repr

/-- An enumeration type: scoped (`enum class`) or classic, with its underlying
integral type. -/
structure EnumTy where
  enum_class : Bool
  underlying : IntTy
  deriving DecidableEq, Repr

/-- The types that occur as template arguments of the traits. -/
inductive CType
  | integral (t : IntTy)
  | floating (f : FloatTy)
  | enumeration (e : EnumTy)
  deriving DecidableEq, Repr

/-- The type `int8_t`. -/
def int8_t : IntTy := ⟨.w8, true⟩
/-- The type `uint8_t`. -/
def uint8_t : IntTy := ⟨.w8, false⟩
/-- The type `int16_t`. -/
def int16_t : IntTy := ⟨.w16, true⟩
/-- The type `uint16_t`. -/
def uint16_t : IntTy := ⟨.w16, false⟩
/-- The type `int32_t`, which is `int`. -/
def int32_t : IntTy := ⟨.w32, true⟩
/-- The type `uint32_t`, which is `unsigned`. -/
def uint32_t : IntTy := ⟨.w32, false⟩
/-- The type `int64_t`. -/
def int64_t : IntTy := ⟨.w64, true⟩
/-- The type `uint64_t`. -/
def uint64_t : IntTy := ⟨.w64, false⟩

/-- The type `int`, the declared return type of the scoped `CastToLuaNumber`. -/
def c_int : IntTy := int32_t

/-- The operator `sizeof`, in bytes.  An enumeration has the size of its
underlying type. -/
def sizeof : CType → Nat
  | .integral t => t.width.bytes
  | .floating .float => 4
  | .floating .double => 8
  | .floating .long_double => 16
  | .enumeration e => e.underlying.width.bytes

/-- The trait `std::is_signed`: true for signed arithmetic types, false for
every type that is not arithmetic, enumerations included. -/
def is_signed : CType → Bool
  | .integral t => t.signed
  | .floating _ => true
  | .enumeration _ => false

/-- The trait `std::is_integral`. -/
def is_integral : CType → Bool
  | .integral _ => true
  | _ => false

/-- The trait `std::is_floating_point`. -/
def is_floating_point : CType → Bool
  | .floating _ => true
  | _ => false

/-- The trait `std::is_enum`. -/
def is_enum : CType → Bool
  | .enumeration _ => true
  | _ => false

/-- The trait `std::is_convertible<T, int>`: arithmetic types and classic
enumerations convert implicitly to `int`, scoped enumerations do not. -/
def is_convertible_to_int : CType → Bool
  | .enumeration e => !e.enum_class
  | _ => true

/-! ## Integer values and conversions -/

/-- The value `std::numeric_limits<t>::max()`. -/
def numeric_limits_max (t : IntTy) : Int :=
  if t.signed then ((2 ^ (t.width.bits - 1) : Nat) : Int) - 1
  else ((2 ^ t.width.bits : Nat) : Int) - 1

/-- The value `std::numeric_limits<t>::min()`. -/
def numeric_limits_min (t : IntTy) : Int :=
  if t.signed then -((2 ^ (t.width.bits - 1) : Nat) : Int) else 0

/-- The integer `v` is a value of the integral type `t`. -/
def in_range (t : IntTy) (v : Int) : Prop :=
  numeric_limits_min t ≤ v ∧ v ≤ numeric_limits_max t

instance (t : IntTy) (v : Int) : Decidable (in_range t v) :=
  inferInstanceAs (Decidable (numeric_limits_min t ≤ v ∧ v ≤ numeric_limits_max t))

/-- Conversion of an integer to the integral type `t`: reduction modulo
`2 ^ width` into the range of `t`. -/
def wrap (t : IntTy) (x : Int) : Int :=
  if t.signed then
    (x + ((2 ^ (t.width.bits - 1) : Nat) : Int)) % ((2 ^ t.width.bits : Nat) : Int)
      - ((2 ^ (t.width.bits - 1) : Nat) : Int)
  else x % ((2 ^ t.width.bits : Nat) : Int)

/-- Integral promotion: a type narrower than `int` is promoted to `int`. -/
def promote (t : IntTy) : IntTy :=
  if t.width.bits < 32 then c_int else t

/-- The common type of the usual arithmetic conversions for two integral
operands: both are promoted; with equal signedness the wider type wins; else
the unsigned type wins unless the signed one is strictly wider (and then can
represent every value of the unsigned one). -/
def common_type (a b : IntTy) : IntTy :=
  let pa := promote a
  let pb := promote b
  if pa.signed = pb.signed then
    (if pb.width.bits ≤ pa.width.bits then pa else pb)
  else if pa.signed then
    (if pa.width.bits ≤ pb.width.bits then pb else pa)
  else
    (if pb.width.bits ≤ pa.width.bits then pa else pb)

/-- The C++ expression `a <= b` for `a` of integral type `A` and `b` of integral
type `B`: both operands are converted to the common type and compared there. -/
def cpp_le (A : IntTy) (a : Int) (B : IntTy) (b : Int) : Bool :=
  decide (wrap (common_type A B) a ≤ wrap (common_type A B) b)

/-! ## Floating conversions on integer values -/

/-- Number of significand bits of a floating type. -/
def FloatTy.precision : FloatTy → Nat
  | .float => 24
  | .double => 53
  | .long_double => 64

/-- Auxiliary for `bit_length`: halving under a bound `k` on the number of steps; a bound
`k ≥ n` is never exhausted (`lt_two_pow_bit_length`). -/
def bit_length_aux : Nat → Nat → Nat
  | 0, _ => 0
  | k + 1, n => if n = 0 then 0 else bit_length_aux k (n / 2) + 1

/-- Number of binary digits of a natural number. -/
def bit_length (n : Nat) : Nat := bit_length_aux n n

/-- Rounding of an integer to the nearest integer with at most `p` significant
bits, ties to even: the value of an integer converted to a floating type. -/
def round_nearest_even (p : Nat) (x : Int) : Int :=
  let n := x.natAbs
  let len := bit_length n
  if len ≤ p then x
  else
    let sh := len - p
    let q := n / 2 ^ sh
    let r := n % 2 ^ sh
    let half := 2 ^ (sh - 1)
    let q1 := if half < r ∨ (r = half ∧ q % 2 = 1) then q + 1 else q
    Int.sign x * ((q1 * 2 ^ sh : Nat) : Int)

/-- The conversion `static_cast<To>(x)` of a value `x` of type `From`.
Integral and enumeration targets reduce an integral source modulo `2 ^ width`;
a floating target rounds; a floating source converted to an integral or
enumeration target is undefined (`none`) when the value is out of range. -/
def static_cast (To From : CType) (x : Int) : Option Int :=
  match To, From with
  | .floating f, _ => some (round_nearest_even f.precision x)
  | .integral t, .floating _ => if in_range t x then some x else none
  | .integral t, _ => some (wrap t x)
  | .enumeration e, .floating _ => if in_range e.underlying x then some x else none
  | .enumeration e, _ => some (wrap e.underlying x)

/-! ## The traits of `scoped_enum_helper.hpp` -/

/-- The metafunction `is_scoped_enum<T>`:
`std::is_enum<T>::value && !std::is_convertible<T, int>::value`. -/
def is_scoped_enum (T : CType) : Bool :=
  is_enum T && !is_convertible_to_int T

/-- The trait `is_float_castable_<Int, Float>`: `sizeof(Int) < sizeof(Float)`. -/
def is_float_castable_ (I F : CType) : Bool :=
  decide (sizeof I < sizeof F)

/-- The trait `is_float_castable<T, LuaNumberType>`. -/
def is_float_castable (T : EnumTy) (N : CType) : Bool :=
  if is_floating_point N then is_float_castable_ (.enumeration T) N
  else false

/-- The trait `is_integer_castable_<Src, Dst>`. -/
def is_integer_castable_ (Src Dst : CType) : Bool :=
  decide (sizeof Src < sizeof Dst) ||
    (decide (sizeof Src = sizeof Dst) && (is_signed Src == is_signed Dst))

/-- The trait `is_integer_castable<T, LuaNumberType>`: the classic branch hands
`T` itself to `is_integer_castable_`, the scoped branch hands over
`std::underlying_type_t<T>`. -/
def is_integer_castable (T : EnumTy) (N : CType) : Bool :=
  if is_integral N && !is_scoped_enum (.enumeration T) then
    is_integer_castable_ (.enumeration T) N
  else if is_integral N && is_scoped_enum (.enumeration T) then
    is_integer_castable_ (.integral T.underlying) N
  else false

/-- The metafunction `is_ok_enum<T, LuaNumberType>`. -/
def is_ok_enum (T : EnumTy) (N : CType) : Bool :=
  is_integer_castable T N || is_float_castable T N

/-- The trait `is_constexpr_float_castable_<Int, v, Float>`, one partial
specialisation per floating type. -/
def is_constexpr_float_castable_ (I : IntTy) (v : Int) : FloatTy → Bool
  | .float => cpp_le I v uint16_t (numeric_limits_max uint16_t)
  | .double => cpp_le I v uint32_t (numeric_limits_max uint32_t)
  | .long_double => cpp_le I v uint64_t (numeric_limits_max uint64_t)

/-- The trait `is_constexpr_float_castable<T, v, LuaNumberType>`. -/
def is_constexpr_float_castable (T : EnumTy) (v : Int) (N : CType) : Bool :=
  match N with
  | .floating f => is_constexpr_float_castable_ T.underlying (wrap T.underlying v) f
  | _ => false

/-- The alias `is_constexpr_integer_castable_<Src, v, Dst>`:
`v <= std::numeric_limits<Dst>::max()`.  `Src` is the integral type as which `v`
enters the comparison.  `Dst` is integral at both places of use. -/
def is_constexpr_integer_castable_ (Src : IntTy) (v : Int) (Dst : IntTy) : Bool :=
  cpp_le Src v Dst (numeric_limits_max Dst)

/-- The trait `is_constexpr_integer_castable<T, v, LuaNumberType>`.  In the
classic branch `v` has the classic enumeration type `T`, and an operand of classic
enumeration type enters the comparison as an integer through integral promotion,
here from the underlying type; in the scoped branch `v` is cast to the underlying
type explicitly. -/
def is_constexpr_integer_castable (T : EnumTy) (v : Int) (N : CType) : Bool :=
  match N with
  | .integral n =>
    if !is_scoped_enum (.enumeration T) then
      is_constexpr_integer_castable_ T.underlying v n
    else
      is_constexpr_integer_castable_ T.underlying (wrap T.underlying v) n
  | _ => false

/-- The metafunction `is_constexpr_ok_enum<T, v, LuaNumberType>`. -/
def is_constexpr_ok_enum (T : EnumTy) (v : Int) (N : CType) : Bool :=
  is_ok_enum T N || is_constexpr_integer_castable T v N ||
    is_constexpr_float_castable T v N

/-! ## The cast helpers -/

/-- The class `unchecked_enum_helper<T, LuaNumberType>`, identified by its two
template arguments. -/
structure unchecked_enum_helper where
  T : EnumTy
  LuaNumberType : CType
  deriving DecidableEq, Repr

/-- The declared return type of `CastToLuaNumber`: `LuaNumberType` in the classic
specialisation, `int` in the scoped one. -/
def unchecked_enum_helper.CastToLuaNumber_type (h : unchecked_enum_helper) : CType :=
  if is_scoped_enum (.enumeration h.T) then .integral c_int else h.LuaNumberType

/-- The function `unchecked_enum_helper<T, LuaNumberType>::CastToLuaNumber`.
Classic: `static_cast<LuaNumberType>(v)`.  Scoped:
`static_cast<LuaNumberType>(static_cast<underlying>(v))`, converted to the
declared return type `int` by the `return` statement. -/
def unchecked_enum_helper.CastToLuaNumber (h : unchecked_enum_helper) (v : Int) :
    Option Int :=
  if is_scoped_enum (.enumeration h.T) then
    (static_cast (.integral h.T.underlying) (.enumeration h.T) v).bind fun u =>
    (static_cast h.LuaNumberType (.integral h.T.underlying) u).bind fun n =>
    static_cast (.integral c_int) h.LuaNumberType n
  else
    static_cast h.LuaNumberType (.enumeration h.T) v

/-- The function `unchecked_enum_helper<T, LuaNumberType>::CastFromLuaNumber`, with
the parameter `LuaNumberType v`: the argument is converted to `LuaNumberType`
first.  Classic: `static_cast<T>(v)`.  Scoped:
`static_cast<T>(static_cast<underlying>(v))`. -/
def unchecked_enum_helper.CastFromLuaNumber (h : unchecked_enum_helper) (v : Int) :
    Option Int :=
  (static_cast h.LuaNumberType h.LuaNumberType v).bind fun n =>
  if is_scoped_enum (.enumeration h.T) then
    (static_cast (.integral h.T.underlying) h.LuaNumberType n).bind fun u =>
    static_cast (.enumeration h.T) (.integral h.T.underlying) u
  else
    static_cast (.enumeration h.T) h.LuaNumberType n

/-- The class `enum_helper<T, LuaNumberType>`: the classic specialisation and the
scoped one with `is_ok_enum` derive from `unchecked_enum_helper`; the scoped one
without `is_ok_enum` fails its `static_assert`. -/
def enum_helper (T : EnumTy) (N : CType) : Except String unchecked_enum_helper :=
  if !is_scoped_enum (.enumeration T) then .ok ⟨T, N⟩
  else if is_ok_enum T N then .ok ⟨T, N⟩
  else .error "this scoped enum type is not compatible with luabind"

/-- The class `constexpr_enum_helper<T, v, LuaNumberType>`, as the result of using
its member `Value`: with `is_constexpr_ok_enum` the member is initialised from
`unchecked_enum_helper<T, LuaNumberType>::CastToLuaNumber(v)`, converted from the
declared return type to `LuaNumberType`; an initialiser with undefined behaviour
is not a constant expression.  Without `is_constexpr_ok_enum` the
`static_assert` fails. -/
def constexpr_enum_helper (T : EnumTy) (v : Int) (N : CType) : Except String Int :=
  if is_constexpr_ok_enum T v N then
    match ((⟨T, N⟩ : unchecked_enum_helper).CastToLuaNumber v).bind
        (static_cast N ((⟨T, N⟩ : unchecked_enum_helper).CastToLuaNumber_type)) with
    | some x => .ok x
    | none => .error "the initializer of Value is not a constant expression"
  else .error "this scoped enumeration value is not compatible with luabind"

/-- The result is a value, not a rejection. -/
def accepted {α : Type} : Except String α → Bool
  | .ok _ => true
  | .error _ => false

/-! ## The test enumerations of the header -/

/-- The enumeration `tests::bear<T>::porridge`, an `enum class` over `T`. -/
def porridge (T : IntTy) : EnumTy := ⟨true, T⟩

/-- The enumerator `SUPERFLUID_HELIUM = 0`. -/
def SUPERFLUID_HELIUM : Int := 0

/-- The enumerator `GOLDILOCKS = std::numeric_limits<int>::max()`. -/
def GOLDILOCKS : Int := numeric_limits_max c_int

/-- The enumerator `COOKED_IN_A_TOKAMAK = std::numeric_limits<T>::max()`. -/
def COOKED_IN_A_TOKAMAK (T : IntTy) : Int := numeric_limits_max T

/-- The classic enumeration `tests::bender`; its underlying type is chosen by the
implementation, `unsigned int` here. -/
def bender : EnumTy := ⟨false, uint32_t⟩

end detail

/-!
# Ownership policies: `test/test_policies.cpp`

The test file supplies the native callables and the host script.  The policy
headers (`out_value_policy.hpp`, `copy_policy.hpp`, `adopt_policy.hpp`,
`return_reference_to_policy.hpp`, `dependency_policy.hpp`,
`discard_result_policy.hpp`), the object representation and the host collector
are not among the sources; they are modelled from the specification and marked
as such.
-/

namespace test_policies

open detail (in_range c_int)

/-! ## The native side -/

/-- A live object of `struct policies_test_class`: its address and its member
`name_`. -/
structure policies_test_class where
  address : Nat
  name_ : String
  deriving DecidableEq, Repr

/-- The native state the test observes: the static `policies_test_class::count`,
the live objects, the next address `new` hands out, and the addresses on which
the destructor has run, in order. -/
structure Native where
  count : Int
  objects : List policies_test_class
  fresh : Nat
  destroyed : List Nat
  deriving DecidableEq, Repr

/-- The address of the object `policies_test_class global;`. -/
def global_address : Nat := 0

/-- The native state when `test_main` starts: `count` is initialised to `0` and
the default constructor of `global` has incremented it. -/
def Native.start : Native := ⟨1, [⟨global_address, ""⟩], 1, []⟩

/-- The constructors `policies_test_class(const char* name)` and
`policies_test_class()` on fresh storage: `++count`. -/
def Native.construct (name : String) (n : Native) : Nat × Native :=
  (n.fresh,
    { n with
      count := n.count + 1
      objects := n.objects ++ [⟨n.fresh, name⟩]
      fresh := n.fresh + 1 })

/-- The member `name_` of the live object at an address. -/
def Native.name_of (p : Nat) (n : Native) : String :=
  ((n.objects.find? fun o => o.address == p).map fun o => o.name_).getD ""

/-- The copy constructor `policies_test_class(policies_test_class const& c)` on
fresh storage: `name_(c.name_)`, `++count`. -/
def Native.copy_construct (c : Nat) (n : Native) : Nat × Native :=
  n.construct (n.name_of c)

/-- The destructor `~policies_test_class()` followed by deallocation, as run by
`delete p`: `--count`. -/
def Native.destroy (p : Nat) (n : Native) : Native :=
  { n with
    count := n.count - 1
    objects := n.objects.filter fun o => o.address != p
    destroyed := n.destroyed ++ [p] }

/-- The member function `policies_test_class::make`:
`return new policies_test_class(name);`. -/
def make (_this : Nat) (name : String) (n : Native) : Nat × Native :=
  n.construct name

/-- The member function `policies_test_class::f`: `delete p;`. -/
def f (_this : Nat) (p : Nat) (n : Native) : Native :=
  n.destroy p

/-- The member function `policies_test_class::internal_ref`: `return this;`. -/
def internal_ref (this : Nat) : Nat := this

/-- The member function `policies_test_class::self_ref`: `return this;`. -/
def self_ref (this : Nat) : Nat := this

/-- The type `secret_type` with its one object `sec_`. -/
inductive secret_type
  | sec_
  deriving DecidableEq, Repr

/-- The function `secret`: `return &sec_;`. -/
def secret : secret_type := .sec_

/-- The member function `policies_test_class::member_secret`: `return &sec_;`. -/
def member_secret (_this : Nat) : secret_type := .sec_

/-- The function `copy_val`: `return &global;`. -/
def copy_val : Nat := global_address

/-- The function `copy_val_const`: `return &global;`. -/
def copy_val_const : Nat := global_address

/-- The member function `policies_test_class::member_pure_out_val`:
`*v = a * 2;`.  The result is the pointee after the call; the pointee before the
call is not read.  Overflow of `int` is undefined (`none`). -/
def member_pure_out_val (a : Int) (_v : Int) : Option Int :=
  if in_range c_int (a * 2) then some (a * 2) else none

/-- The member function `policies_test_class::member_out_val`: `*v *= a;`.  The
result is the pointee after the call.  Overflow of `int` is undefined
(`none`). -/
def member_out_val (a : Int) (v : Int) : Option Int :=
  if in_range c_int (v * a) then some (v * a) else none

/-- The function `out_val`: `*f = 3.f;`.  The result is the pointee after the
call. -/
def out_val (_f : Int) : Option Int := some 3

/-! ## Host values -/

/-- The host variables the script of `test_main` assigns to. -/
inductive HostVar
  | a
  | b
  deriving DecidableEq, Repr

/-- A value held by the host runtime: `nil`, a number, or a Representative of the
native object at an address. -/
inductive HostValue
  | nil
  | number (n : Int)
  | userdata (address : Nat)
  deriving DecidableEq, Repr

/-- The address behind a host value that is a Representative. -/
def HostValue.address? : HostValue → Option Nat
  | .userdata p => some p
  | _ => none

/-! ## The call adapter for out-values -/

/-- The binding of one parameter slot of a callable: the object a member function
is called on, an `int` passed by value, or an `int*` / `float*` bound with
`out_value` or `pure_out_value`. -/
inductive Param
  | object
  | by_value
  | out_value
  | pure_out_value
  deriving DecidableEq, Repr

/-- Modelled from the spec: the conversion of host arguments to native arguments by
the Call Adapter (the converter chain and `out_value_policy.hpp` are missing).
An object slot and a by-value slot each take one host argument; an `OutValue`
slot takes one host argument, the value the pointee holds before the call
("`OutValue` requires the callee to read-modify it"); a `PureOutValue` slot
takes none ("`PureOutValue` ignores the value pointed to before the call") and
its pointee starts with the indeterminate content `junk`.  The result is the
by-value arguments and the pointees before the call; a host argument list that
does not fit fails (`none`). -/
def marshal (junk : Int) : List Param → List HostValue → Option (List Int × List Int)
  | [], [] => some ([], [])
  | .object :: ps, .userdata _ :: hs => marshal junk ps hs
  | .by_value :: ps, .number n :: hs =>
    if in_range c_int n then
      (marshal junk ps hs).map fun r => (n :: r.1, r.2)
    else none
  | .out_value :: ps, .number n :: hs =>
    if in_range c_int n then
      (marshal junk ps hs).map fun r => (r.1, n :: r.2)
    else none
  | .pure_out_value :: ps, hs =>
    (marshal junk ps hs).map fun r => (r.1, junk :: r.2)
  | _, _ => none

/-- Modelled from the spec: the Call Adapter for a callable returning `void`
(`out_value_policy.hpp` is missing): it "converts host arguments to native
arguments", "invokes the native callable" and returns "the final ordered list
of host-visible results", here the out-values in parameter order, each read
from its pointee after the call. -/
def call_adapter (params : List Param) (callee : List Int → List Int → Option (List Int))
    (junk : Int) (args : List HostValue) : Option (List HostValue) :=
  (marshal junk params args).bind fun r =>
    (callee r.1 r.2).map fun outs => outs.map HostValue.number

/-- The registration `.def("member_out_val", &policies_test_class::member_out_val,
out_value<3>())`: slot 1 is the object, slot 2 is `a`, slot 3 is `v`. -/
def bound_member_out_val (junk : Int) (args : List HostValue) : Option (List HostValue) :=
  call_adapter [.object, .by_value, .out_value]
    (fun vals ptrs =>
      match vals, ptrs with
      | [a], [v] => (member_out_val a v).map fun r => [r]
      | _, _ => none)
    junk args

/-- The registration `.def("member_pure_out_val",
&policies_test_class::member_pure_out_val, pure_out_value<3>())`. -/
def bound_member_pure_out_val (junk : Int) (args : List HostValue) :
    Option (List HostValue) :=
  call_adapter [.object, .by_value, .pure_out_value]
    (fun vals ptrs =>
      match vals, ptrs with
      | [a], [v] => (member_pure_out_val a v).map fun r => [r]
      | _, _ => none)
    junk args

/-- The registration `def("out_val", &out_val, pure_out_value<1>())`. -/
def bound_out_val (junk : Int) (args : List HostValue) : Option (List HostValue) :=
  call_adapter [.pure_out_value]
    (fun vals ptrs =>
      match vals, ptrs with
      | [], [v] => (out_val v).map fun r => [r]
      | _, _ => none)
    junk args

/-! ## The bridge -/

/-- Modelled from the spec: a Representative, the "host-runtime-visible proxy for a
NativeValue" (the object representation of luabind is missing).  It is
identified by the address it stands for and records whether the bridge owns
the value. -/
structure Representative where
  address : Nat
  owning : Bool
  deriving DecidableEq, Repr

/-- Modelled from the spec: the state of one scripting-runtime instance (the
luabind runtime and the host collector are missing): the native side, the
Representative Registry, the Dependency Graph as edges `(dependent, dependency)`
between Representatives, and the host variables, which are the roots of the
host collector. -/
structure Bridge where
  native : Native
  registry : List Representative
  edges : List (Nat × Nat)
  globals : HostVar → HostValue

/-- The bridge when `test_main` starts: no Representative, no edge, every host
variable `nil`. -/
def Bridge.start : Bridge := ⟨Native.start, [], [], fun _ => .nil⟩

/-- The host assignment `x = v`. -/
def Bridge.assign (x : HostVar) (v : HostValue) (s : Bridge) : Bridge :=
  { s with globals := fun y => if y = x then v else s.globals y }

/-- Modelled from the spec: the Representative constructor `wrap(nativeAddress,
typeId, owning)`, "a no-op returning the existing Representative if one is
already registered for that address". -/
def Bridge.wrap (p : Nat) (owning : Bool) (s : Bridge) : Bridge :=
  if s.registry.any (fun r => r.address == p) then s
  else { s with registry := s.registry ++ [⟨p, owning⟩] }

/-- Marking of the Representative of an address as owning or not owning. -/
def Bridge.set_owning (p : Nat) (owning : Bool) (s : Bridge) : Bridge :=
  { s with
    registry := s.registry.map fun r => if r.address = p then { r with owning := owning } else r }

/-- Modelled from the spec: `install_strong_ref(fromRepresentative,
toRepresentative)`, which materialises a `DependencyEdge`. -/
def Bridge.install_strong_ref (dependent : Nat) (dependency : Nat) (s : Bridge) : Bridge :=
  { s with edges := s.edges ++ [(dependent, dependency)] }

/-- Modelled from the spec: the policy `Borrowed` (the default conversion of a
returned pointer): "if no Representative exists yet for this NativeValue,
create one that does not own the value; if one exists, reuse it". -/
def Borrowed (p : Nat) (s : Bridge) : HostValue × Bridge :=
  (.userdata p, s.wrap p false)

/-- Modelled from the spec: the policy `Copied` (`copy_policy.hpp` is missing):
"always constructs a new NativeValue via the type's duplication operation";
"the new value gets its own fresh Representative", and "the bridge owns the
copy". -/
def Copied (p : Nat) (s : Bridge) : HostValue × Bridge :=
  let r := s.native.copy_construct p
  (.userdata r.1, ({ s with native := r.2 } : Bridge).wrap r.1 true)

/-- Modelled from the spec: the policy `Discarded` (`discard_result_policy.hpp` is
missing): "suppresses Representative creation entirely; the slot contributes
no value to the host-visible result list". -/
def Discarded {α : Type} (_p : α) (s : Bridge) : HostValue × Bridge :=
  (.nil, s)

/-- Modelled from the spec: the policy `Adopted(paramIndex)` (`adopt_policy.hpp` is
missing), on the return slot and on a parameter slot alike: "the bridge takes
ownership of a native-owned pointer; its eventual Representative is responsible
for releasing it"; the engine is to "create or reuse a Representative and mark
it as bridge-owning".  That "the native side must not independently release it
afterward" is "the caller's contract, not something the engine can verify at
runtime". -/
def Adopted (p : Nat) (s : Bridge) : HostValue × Bridge :=
  (.userdata p, (s.wrap p true).set_owning p true)

/-- Modelled from the spec: the policy `ReturnReference(toParamIndex)`
(`return_reference_to_policy.hpp` is missing): it "creates/reuses a
Representative for the returned value without taking ownership, then adds a
`DependencyEdge(dependent = returned Representative, dependency =
Representative of param toParamIndex)`". -/
def ReturnReference (p : Nat) (target : Nat) (s : Bridge) : HostValue × Bridge :=
  (.userdata p, (s.wrap p false).install_strong_ref p target)

/-- Modelled from the spec: the policy `Dependency(dependentSlot, dependencySlot)`
(`dependency_policy.hpp` is missing): it "adds `DependencyEdge` directly between
the two named slots' Representatives; does not itself affect ownership of
either". -/
def Dependency (dependent : Nat) (dependency : Nat) (s : Bridge) : Bridge :=
  s.install_strong_ref dependent dependency

/-! ## The host collector -/

/-- The addresses held by host variables: the roots. -/
def Bridge.roots (s : Bridge) : List Nat :=
  [HostVar.a, HostVar.b].filterMap fun x => (s.globals x).address?

/-- One round of marking: the dependencies of the marked dependents are added. -/
def mark_step (edges : List (Nat × Nat)) (marked : List Nat) : List Nat :=
  marked ++ (edges.filter fun e => decide (e.1 ∈ marked)).map fun e => e.2

/-- Repeated rounds of marking. -/
def mark_iter (edges : List (Nat × Nat)) : Nat → List Nat → List Nat
  | 0, marked => marked
  | k + 1, marked => mark_iter edges k (mark_step edges marked)

/-- The addresses reachable from the roots along dependency edges; as many rounds
as there are edges reach the closure (`mark_closed`). -/
def mark (edges : List (Nat × Nat)) (roots : List Nat) : List Nat :=
  mark_iter edges edges.length roots

/-- Modelled from the spec: the Representatives reachable "from host roots",
"transitively, through the GC-visible reference the edge installs". -/
def Bridge.reachable (s : Bridge) : List Nat :=
  mark s.edges s.roots

/-- The dependencies held by the edges of the Representatives that are not
reachable. -/
def Bridge.pinned (s : Bridge) : List Nat :=
  (s.edges.filter fun e => decide (e.1 ∉ s.reachable)).map fun e => e.2

/-- Modelled from the spec: whether a Representative survives a collection pass.  A
Representative reachable from the roots is kept ("while `dependent` is reachable
from host code, `dependency` must not be collected").  The release of an edge
"may lag by one extra collection pass relative to `dependent`'s own
collection", and "a dependency object may survive one extra collection cycle
after its last dependent becomes unreachable": with `lag` a Representative found
unreachable in this pass survives it when the edge of a Representative found
unreachable in this pass refers to it. -/
def Bridge.survives (lag : Bool) (s : Bridge) (r : Representative) : Bool :=
  decide (r.address ∈ s.reachable) || (lag && decide (r.address ∈ s.pinned))

/-- The addresses a collection pass releases: a Representative is "destroyed when
the host GC collects it, which triggers release of the underlying NativeValue
only if the bridge owns it". -/
def Bridge.freed (lag : Bool) (s : Bridge) : List Nat :=
  (s.registry.filter fun r => !s.survives lag r && r.owning).map fun r => r.address

/-- Modelled from the spec: one full collection pass of the host collector (the
host runtime is missing), `collectgarbage()` in the script.  The Representatives
that do not survive are destroyed and the values they own are released; the
edges of the Representatives found unreachable are dropped (an edge is "only
dropped once its owner is collected"). -/
def collectgarbage (lag : Bool) (s : Bridge) : Bridge :=
  { s with
    native := (s.freed lag).foldl (fun n p => n.destroy p) s.native
    registry := s.registry.filter (s.survives lag)
    edges := s.edges.filter fun e => decide (e.1 ∈ s.reachable) }

/-- A sequence of collection passes, one for each entry of `lags`. -/
def collect_passes (lags : List Bool) (s : Bridge) : Bridge :=
  lags.foldl (fun t lag => collectgarbage lag t) s

/-! ## The bound functions and the host script -/

/-- The registration `def("secret", &secret, discard_result())`, called as
`x = secret()`: the host sees no value. -/
def stmt_secret (x : HostVar) (s : Bridge) : Bridge :=
  let r := Discarded secret s
  r.2.assign x r.1

/-- The registration `def("copy_val", &copy_val, copy_policy<0>())`, called as
`x = copy_val()`. -/
def stmt_copy_val (x : HostVar) (s : Bridge) : Bridge :=
  let r := Copied copy_val s
  r.2.assign x r.1

/-- The registration `def("copy_val_const", &copy_val_const, copy_policy<0>())`,
called as `x = copy_val_const()`. -/
def stmt_copy_val_const (x : HostVar) (s : Bridge) : Bridge :=
  let r := Copied copy_val_const s
  r.2.assign x r.1

/-- The registration `def("out_val", &out_val, pure_out_value<1>())`, called as
`x = out_val()`. -/
def stmt_out_val (junk : Int) (x : HostVar) (s : Bridge) : Option Bridge :=
  match bound_out_val junk [] with
  | some [v] => some (s.assign x v)
  | _ => none

/-- Modelled from the spec: the registration `.def(constructor<>())`, called as
`x = test()` (the constructor binding of luabind is missing): the default
constructor runs on fresh storage, and the new Representative is "the original
owning reference". -/
def stmt_test (x : HostVar) (s : Bridge) : Bridge :=
  let r := s.native.construct ""
  (({ s with native := r.2 } : Bridge).wrap r.1 true).assign x (.userdata r.1)

/-- The registration `.def("self_ref", &policies_test_class::self_ref,
return_reference_to<1>())`, called as `x = y:self_ref()`. -/
def stmt_self_ref (x y : HostVar) (s : Bridge) : Option Bridge :=
  match s.globals y with
  | .userdata this =>
    let r := ReturnReference (self_ref this) this s
    some (r.2.assign x r.1)
  | _ => none

/-- The registration `.def("internal_ref", &policies_test_class::internal_ref,
dependency_policy<0,1>())`, called as `x = y:internal_ref()`: the result is
converted as `Borrowed`, and the result (slot 0) depends on the object
(slot 1). -/
def stmt_internal_ref (x y : HostVar) (s : Bridge) : Option Bridge :=
  match s.globals y with
  | .userdata this =>
    let r := Borrowed (internal_ref this) s
    some ((Dependency (internal_ref this) this r.2).assign x r.1)
  | _ => none

/-- The registration `.def("make", &policies_test_class::make, adopt_policy<0>())`,
called as `x = y:make(name)`. -/
def stmt_make (x y : HostVar) (name : String) (s : Bridge) : Option Bridge :=
  match s.globals y with
  | .userdata this =>
    let n := make this name s.native
    let r := Adopted n.1 { s with native := n.2 }
    some (r.2.assign x r.1)
  | _ => none

/-- The registration `.def("f", &policies_test_class::f, adopt_policy<2>())`,
called as `y:f(x)`: the native callable runs, then the policy of slot 2 is
applied to the argument; the call has no host-visible result. -/
def stmt_f (y x : HostVar) (s : Bridge) : Option Bridge :=
  match s.globals y, s.globals x with
  | .userdata this, .userdata p =>
    some (Adopted p { s with native := f this p s.native }).2
  | _, _ => none

/-- The registration `.def("member_secret", &policies_test_class::member_secret,
discard_result())`, called as `y:member_secret()`. -/
def stmt_member_secret (y : HostVar) (s : Bridge) : Option Bridge :=
  match s.globals y with
  | .userdata this => some (Discarded (member_secret this) s).2
  | _ => none

/-- The value of `policies_test_class::count` that a `TEST_CHECK` reads. -/
def Bridge.count (s : Bridge) : Int := s.native.count

/-- The script lines 189 to 197: `a = copy_val()`, `b = copy_val_const()`, `a = nil`,
`b = nil`, run from the state `s`. -/
def script_copy (s : Bridge) : Bridge :=
  ((stmt_copy_val_const .b (stmt_copy_val .a s)).assign .a .nil).assign .b .nil

/-- The function `test_main` from its first `DOSTRING` to the `TEST_CHECK` at line 267.
Each `collectgarbage()` of the script takes its own `lag`.  The result is the list of
the values of `policies_test_class::count` read by the thirteen `TEST_CHECK`s, and
the values the three `assert`s of the script compare: `a` after `a = out_val()`,
the result of `a:member_pure_out_val(3)` and the result of `a:member_out_val(3,2)`. -/
def test_main (l1 l2 l3 l4 l5 l6 l7 : Bool) (junk : Int) :
    Option (List Int × HostValue × List HostValue × List HostValue) := do
  let s := stmt_secret .a Bridge.start
  let c1 := s.count
  let s := stmt_copy_val .a s
  let c2 := s.count
  let s := stmt_copy_val_const .b s
  let c3 := s.count
  let s := collectgarbage l1 ((s.assign .a .nil).assign .b .nil)
  let c4 := s.count
  let s ← stmt_out_val junk .a s
  let a1 := s.globals .a
  let s ← stmt_self_ref .b .a (stmt_test .a s)
  let s := collectgarbage l2 (s.assign .a .nil)
  let c5 := s.count
  let s := collectgarbage l3 (s.assign .b .nil)
  let c6 := s.count
  let s := stmt_test .a s
  let c7 := s.count
  let s ← stmt_internal_ref .b .a s
  let s := collectgarbage l4 (s.assign .a .nil)
  let c8 := s.count
  let s := collectgarbage l6 (collectgarbage l5 (s.assign .b .nil))
  let c9 := s.count
  let s := stmt_test .a s
  let c10 := s.count
  let s ← stmt_make .b .a "tjosan" s
  let r1 ← bound_member_pure_out_val junk [s.globals .a, .number 3]
  let r2 ← bound_member_out_val junk [s.globals .a, .number 3, .number 2]
  let s ← stmt_member_secret .a s
  let c11 := s.count
  let s ← stmt_f .a .b s
  let c12 := s.count
  let s := collectgarbage l7 (s.assign .a .nil)
  let c13 := s.count
  pure ([c1, c2, c3, c4, c5, c6, c7, c8, c9, c10, c11, c12, c13], a1, r1, r2)

end test_policies

namespace detail

/-! ## The embedding against the header's own static assertions -/

/-- The static assertions of the `tests` namespace of the header hold in the embedding. -/
theorem tests_static_asserts :
    is_scoped_enum (.enumeration bender) = false
    ∧ is_scoped_enum (.enumeration (porridge c_int)) = true
    ∧ numeric_limits_max c_int = wrap c_int (wrap uint32_t GOLDILOCKS)
    ∧ is_ok_enum (porridge int32_t) (.integral c_int) = true
    ∧ is_ok_enum (porridge uint32_t) (.integral c_int) = false
    ∧ is_ok_enum (porridge int64_t) (.integral c_int) = false
    ∧ is_ok_enum (porridge uint64_t) (.integral c_int) = false
    ∧ is_constexpr_ok_enum (porridge uint32_t) SUPERFLUID_HELIUM (.integral c_int) = true
    ∧ is_constexpr_ok_enum (porridge uint32_t) GOLDILOCKS (.integral c_int) = true
    ∧ is_constexpr_ok_enum (porridge uint32_t) (COOKED_IN_A_TOKAMAK uint32_t)
        (.integral c_int) = false
    ∧ is_constexpr_ok_enum (porridge int64_t) SUPERFLUID_HELIUM (.integral c_int) = true
    ∧ is_constexpr_ok_enum (porridge int64_t) GOLDILOCKS (.integral c_int) = true
    ∧ is_constexpr_ok_enum (porridge int64_t) (COOKED_IN_A_TOKAMAK int64_t)
        (.integral c_int) = false
    ∧ is_constexpr_ok_enum (porridge uint64_t) SUPERFLUID_HELIUM (.integral c_int) = true
    ∧ is_constexpr_ok_enum (porridge uint64_t) GOLDILOCKS (.integral c_int) = true
    ∧ is_constexpr_ok_enum (porridge uint64_t) (COOKED_IN_A_TOKAMAK uint64_t)
        (.integral c_int) = false
    ∧ is_ok_enum (porridge int32_t) (.floating .double) = true
    ∧ is_ok_enum (porridge int64_t) (.floating .double) = false
    ∧ is_ok_enum (porridge uint64_t) (.floating .double) = false
    ∧ is_constexpr_ok_enum (porridge uint32_t) SUPERFLUID_HELIUM (.floating .double) = true
    ∧ is_constexpr_ok_enum (porridge uint32_t) GOLDILOCKS (.floating .double) = true
    ∧ is_constexpr_ok_enum (porridge uint32_t) (COOKED_IN_A_TOKAMAK uint32_t)
        (.floating .double) = true
    ∧ is_constexpr_ok_enum (porridge int64_t) SUPERFLUID_HELIUM (.floating .double) = true
    ∧ is_constexpr_ok_enum (porridge int64_t) GOLDILOCKS (.floating .double) = true
    ∧ is_constexpr_ok_enum (porridge int64_t) (COOKED_IN_A_TOKAMAK int64_t)
        (.floating .double) = false
    ∧ is_constexpr_ok_enum (porridge uint64_t) SUPERFLUID_HELIUM (.floating .double) = true
    ∧ is_constexpr_ok_enum (porridge uint64_t) GOLDILOCKS (.floating .double) = true
    ∧ is_constexpr_ok_enum (porridge uint64_t) (COOKED_IN_A_TOKAMAK uint64_t)
        (.floating .double) = false := by
  decide

/-! ## Integer conversions and comparisons -/

/-- Halving under a bound that is at least the number reaches zero: the count of steps is
the number of binary digits. -/
theorem lt_two_pow_bit_length_aux (k : Nat) : ∀ n : Nat, n ≤ k → n < 2 ^ bit_length_aux k n := by
  induction k with
  | zero =>
    intro n hn
    have h0 : n = 0 := by omega
    subst h0
    simp [bit_length_aux]
  | succ k ih =>
    intro n hn
    unfold bit_length_aux
    by_cases h0 : n = 0
    · simp [h0]
    · have hk : n / 2 ≤ k := by omega
      have h := ih (n / 2) hk
      simp only [h0, if_false, pow_succ]
      omega

/-- Every natural number is below two to the power of its number of binary digits. -/
theorem lt_two_pow_bit_length (n : Nat) : n < 2 ^ bit_length n :=
  lt_two_pow_bit_length_aux n n (Nat.le_refl n)

/-- Converting a value of an integral type to that same type leaves it unchanged. -/
theorem wrap_of_in_range (t : IntTy) (v : Int) (h : in_range t v) : wrap t v = v := by
  obtain ⟨w, s⟩ := t
  unfold in_range at h
  cases w <;> cases s <;>
    simp [wrap, numeric_limits_max, numeric_limits_min, Width.bits] at h ⊢ <;> omega

/-- A conversion to an integral type yields a value of that type. -/
theorem wrap_in_range (t : IntTy) (x : Int) : in_range t (wrap t x) := by
  obtain ⟨w, s⟩ := t
  unfold in_range
  cases w <;> cases s <;>
    simp [wrap, numeric_limits_max, numeric_limits_min, Width.bits] <;> omega

/-- The C++ comparison `a <= std::numeric_limits<B>::max()`, evaluated after the usual
arithmetic conversions, agrees with the comparison of mathematical integers for every
pair of operand types. -/
theorem cpp_le_numeric_limits_max (A : IntTy) (a : Int) (B : IntTy) (h : in_range A a) :
    cpp_le A a B (numeric_limits_max B) = decide (a ≤ numeric_limits_max B) := by
  obtain ⟨wa, sa⟩ := A
  obtain ⟨wb, sb⟩ := B
  unfold in_range at h
  cases wa <;> cases sa <;> cases wb <;> cases sb <;>
    simp [cpp_le, common_type, promote, wrap, numeric_limits_max, numeric_limits_min,
      Width.bits, c_int, int32_t] at h ⊢ <;> omega

/-- Under `is_integer_castable_<Src, Dst>` the cast to `Dst` and back returns every value
of `Src`. -/
theorem is_integer_castable_round_trip (Src Dst : IntTy) (s : Int) (hs : in_range Src s)
    (h : is_integer_castable_ (.integral Src) (.integral Dst) = true) :
    wrap Src (wrap Dst s) = s := by
  obtain ⟨ws, ss⟩ := Src
  obtain ⟨wd, sd⟩ := Dst
  unfold in_range at hs
  cases ws <;> cases ss <;> cases wd <;> cases sd <;>
    simp [is_integer_castable_, sizeof, is_signed, Width.bytes] at h <;>
    simp [wrap, numeric_limits_max, numeric_limits_min, Width.bits] at hs ⊢ <;> omega

/-- Under `is_integer_castable_<Src, Dst>` every value of `Src` fits within `Dst`, unless
`Src` is signed and `Dst` is unsigned. -/
theorem is_integer_castable_fits_of_sign (Src Dst : IntTy) (s : Int) (hs : in_range Src s)
    (h : is_integer_castable_ (.integral Src) (.integral Dst) = true)
    (hsign : Src.signed = true → Dst.signed = true) :
    in_range Dst s := by
  obtain ⟨ws, ss⟩ := Src
  obtain ⟨wd, sd⟩ := Dst
  unfold in_range at hs ⊢
  cases ws <;> cases ss <;> cases wd <;> cases sd <;>
    simp [is_integer_castable_, sizeof, is_signed, Width.bytes] at h hsign <;>
    simp [numeric_limits_max, numeric_limits_min, Width.bits] at hs ⊢ <;> omega

/-! ## Round trips through the host number type -/

/-- For a scoped enumeration whose underlying type is at most 32 bits wide and an integral
host number type with `is_ok_enum`, `CastFromLuaNumber (CastToLuaNumber v)` is `v`: the
detour through the declared return type `int` loses nothing there. -/
theorem enum_helper_round_trip_of_narrow (U n : IntTy) (v : Int) (hU : U.width ≠ .w64)
    (hv : in_range U v) (hok : is_ok_enum ⟨true, U⟩ (.integral n) = true) :
    ((⟨⟨true, U⟩, .integral n⟩ : unchecked_enum_helper).CastToLuaNumber v).bind
      (⟨⟨true, U⟩, .integral n⟩ : unchecked_enum_helper).CastFromLuaNumber = some v := by
  obtain ⟨wu, su⟩ := U
  obtain ⟨wn, sn⟩ := n
  unfold in_range at hv
  cases wu <;> cases su <;> cases wn <;> cases sn <;>
    simp [is_ok_enum, is_integer_castable, is_float_castable, is_integer_castable_, sizeof,
      is_signed, Width.bytes, is_integral, is_floating_point, is_scoped_enum, is_enum,
      is_convertible_to_int] at hok hU <;>
    simp [unchecked_enum_helper.CastToLuaNumber, unchecked_enum_helper.CastFromLuaNumber,
      static_cast, is_scoped_enum, is_enum, is_convertible_to_int, wrap, numeric_limits_max,
      numeric_limits_min, Width.bits, c_int, int32_t] at hv ⊢ <;> omega

/-- C1, evaluated at the failing input.  For `enum class E : int64_t`, its constant
`v = 2 ^ 32` and the host number type `int64_t`, `is_constexpr_ok_enum<E, v, int64_t>` is
true, yet `constexpr_enum_helper<E, v, int64_t>::Value` is `0`, because the scoped
`CastToLuaNumber` returns `int`, and `CastFromLuaNumber(Value)` is `0`, not `v`.  Also,
for the constant `v = -(2 ^ 40)` of `E` and the host number type `int`, the per-value rule
accepts `v`, `Value` is `0` and `CastFromLuaNumber(Value)` is `0`, not `v`. -/
theorem constexpr_value_round_trip_fails :
    (in_range (porridge int64_t).underlying (2 ^ 32)
      ∧ is_constexpr_ok_enum (porridge int64_t) (2 ^ 32) (.integral int64_t) = true
      ∧ constexpr_enum_helper (porridge int64_t) (2 ^ 32) (.integral int64_t) = .ok 0
      ∧ (⟨porridge int64_t, .integral int64_t⟩ : unchecked_enum_helper).CastFromLuaNumber 0
          = some 0)
    ∧ (in_range (porridge int64_t).underlying (-(2 ^ 40))
      ∧ is_constexpr_ok_enum (porridge int64_t) (-(2 ^ 40)) (.integral c_int) = true
      ∧ constexpr_enum_helper (porridge int64_t) (-(2 ^ 40)) (.integral c_int) = .ok 0
      ∧ (⟨porridge int64_t, .integral c_int⟩ : unchecked_enum_helper).CastFromLuaNumber 0
          = some 0) := by
  refine ⟨⟨by decide, by decide, rfl, by decide⟩, ⟨by decide, by decide, rfl, by decide⟩⟩

/-- C2, evaluated at the failing input.  For `bear<int64_t>::porridge` and the host number
type `int64_t` the whole-type rule `is_ok_enum` holds and `enum_helper` provides the casts,
yet `CastToLuaNumber(COOKED_IN_A_TOKAMAK)`, with its declared return type `int`, is `-1`,
and `CastFromLuaNumber(-1)` is `-1`, not `COOKED_IN_A_TOKAMAK = 2 ^ 63 - 1`. -/
theorem whole_type_round_trip_fails :
    is_ok_enum (porridge int64_t) (.integral int64_t) = true
    ∧ enum_helper (porridge int64_t) (.integral int64_t)
        = .ok ⟨porridge int64_t, .integral int64_t⟩
    ∧ in_range (porridge int64_t).underlying (COOKED_IN_A_TOKAMAK int64_t)
    ∧ COOKED_IN_A_TOKAMAK int64_t = 2 ^ 63 - 1
    ∧ (⟨porridge int64_t, .integral int64_t⟩ : unchecked_enum_helper).CastToLuaNumber
        (COOKED_IN_A_TOKAMAK int64_t) = some (-1)
    ∧ (⟨porridge int64_t, .integral int64_t⟩ : unchecked_enum_helper).CastFromLuaNumber (-1)
        = some (-1) := by
  refine ⟨by decide, rfl, by decide, by decide, by decide, by decide⟩

/-! ## The whole-type rules -/

/-- C3, evaluated at the failing input.  `is_integer_castable_<int8_t, uint16_t>` is true,
yet the value `-1` of `int8_t` lies below `min(uint16_t) = 0`, so it does not fit within
`uint16_t`: the cast to `uint16_t` gives `65535`.  The cast back still returns `-1`. -/
theorem integer_castable_signed_into_unsigned :
    is_integer_castable_ (.integral int8_t) (.integral uint16_t) = true
    ∧ in_range int8_t (-1)
    ∧ ¬ in_range uint16_t (-1)
    ∧ numeric_limits_min uint16_t = 0
    ∧ wrap uint16_t (-1) = 65535
    ∧ wrap int8_t (wrap uint16_t (-1)) = -1 := by
  decide

/-- C4, evaluated at the failing input.  For a classic enumeration `E` with underlying type
`int`: `is_integer_castable<E, int>` is false although the sizes are equal and the
underlying type and `int` are both signed, and `is_integer_castable<E, unsigned>` is true
although the underlying type is signed and `unsigned` is not.  The scoped enumeration over
`int` gets the answers of the size and signedness rule. -/
theorem integer_castable_classic_ignores_underlying :
    is_integer_castable ⟨false, int32_t⟩ (.integral int32_t) = false
    ∧ is_integer_castable ⟨false, int32_t⟩ (.integral uint32_t) = true
    ∧ sizeof (.integral int32_t) = sizeof (.integral uint32_t)
    ∧ int32_t.signed = true
    ∧ uint32_t.signed = false
    ∧ is_integer_castable ⟨true, int32_t⟩ (.integral int32_t) = true
    ∧ is_integer_castable ⟨true, int32_t⟩ (.integral uint32_t) = false := by
  decide

/-- For a scoped enumeration and an integral host type, `is_integer_castable` is the size
and signedness rule on the underlying type; for a classic enumeration the enumeration type
itself, which is never signed, takes the place of the underlying type. -/
theorem is_integer_castable_eq (T : EnumTy) (n : IntTy) :
    is_integer_castable T (.integral n)
      = (decide (T.underlying.width.bytes < n.width.bytes) ||
          (decide (T.underlying.width.bytes = n.width.bytes) &&
            ((T.enum_class && T.underlying.signed) == n.signed))) := by
  obtain ⟨c, U⟩ := T
  cases c <;>
    simp [is_integer_castable, is_integer_castable_, is_integral, is_scoped_enum, is_enum,
      is_convertible_to_int, sizeof, is_signed]

/-- C7.  For every enumeration type `T` and every floating host type `f`, `is_ok_enum<T, f>`
is true exactly when `sizeof(T) < sizeof(f)`, where `sizeof(T)` is the size of the
underlying type: `is_integer_castable<T, f>` is false, and for every integral host type `n`
`is_float_castable<T, n>` is false, so `is_ok_enum<T, n>` equals
`is_integer_castable<T, n>`. -/
theorem ok_enum_floating_iff_sizeof_lt (T : EnumTy) (f : FloatTy) (n : IntTy) :
    (is_ok_enum T (.floating f) = true ↔ sizeof (.enumeration T) < sizeof (.floating f))
    ∧ sizeof (.enumeration T) = sizeof (.integral T.underlying)
    ∧ is_integer_castable T (.floating f) = false
    ∧ is_float_castable T (.integral n) = false
    ∧ is_ok_enum T (.integral n) = is_integer_castable T (.integral n) := by
  refine ⟨?_, rfl, ?_, rfl, ?_⟩
  · simp [is_ok_enum, is_integer_castable, is_float_castable, is_float_castable_, is_integral,
      is_floating_point]
  · simp [is_integer_castable, is_integral]
  · simp [is_ok_enum, is_float_castable, is_floating_point]

/-! ## The per-value rules -/

/-- C5.  For every enumeration type `T`, classic or scoped, with an underlying type of 8, 16,
32 or 64 bits, signed or unsigned, every value `v` of `T` and every integral host type `n`:
`is_constexpr_integer_castable<T, v, n>` is true exactly when `v ≤ max(n)` as mathematical
integers; for every floating host type, and every other non-integral type, it is false. -/
theorem constexpr_integer_castable_iff_le_max (T : EnumTy) (v : Int) (n : IntTy)
    (f : FloatTy) (e : EnumTy) (hv : in_range T.underlying v) :
    (is_constexpr_integer_castable T v (.integral n) = true ↔ v ≤ numeric_limits_max n)
    ∧ is_constexpr_integer_castable T v (.floating f) = false
    ∧ is_constexpr_integer_castable T v (.enumeration e) = false := by
  refine ⟨?_, rfl, rfl⟩
  unfold is_constexpr_integer_castable is_constexpr_integer_castable_
  simp only [wrap_of_in_range _ _ hv, ite_self, cpp_le_numeric_limits_max _ _ _ hv,
    decide_eq_true_eq]

/-- C5 at `bear<unsigned>::porridge::GOLDILOCKS` against `int`. -/
theorem constexpr_integer_castable_iff_le_max_witness :
    in_range (porridge uint32_t).underlying GOLDILOCKS
    ∧ ((is_constexpr_integer_castable (porridge uint32_t) GOLDILOCKS (.integral c_int) = true
          ↔ GOLDILOCKS ≤ numeric_limits_max c_int)
      ∧ is_constexpr_integer_castable (porridge uint32_t) GOLDILOCKS (.floating .double) = false
      ∧ is_constexpr_integer_castable (porridge uint32_t) GOLDILOCKS (.enumeration bender)
          = false) :=
  ⟨by decide,
    constexpr_integer_castable_iff_le_max (porridge uint32_t) GOLDILOCKS c_int .double bender
      (by decide)⟩

/-- C6.  For every enumeration type `T` with an underlying type of 8, 16, 32 or 64 bits, signed
or unsigned, and every value `v` of `T`: `is_constexpr_float_castable<T, v, N>` is true
exactly when `v ≤ 2 ^ 16 - 1` for `N = float`, `v ≤ 2 ^ 32 - 1` for `N = double` and
`v ≤ 2 ^ 64 - 1` for `N = long double`, as mathematical integers; for every integral host
type, and every other non-floating type, it is false. -/
theorem constexpr_float_castable_iff_le_bound (T : EnumTy) (v : Int) (n : IntTy) (e : EnumTy)
    (hv : in_range T.underlying v) :
    (is_constexpr_float_castable T v (.floating .float) = true ↔ v ≤ 2 ^ 16 - 1)
    ∧ (is_constexpr_float_castable T v (.floating .double) = true ↔ v ≤ 2 ^ 32 - 1)
    ∧ (is_constexpr_float_castable T v (.floating .long_double) = true ↔ v ≤ 2 ^ 64 - 1)
    ∧ is_constexpr_float_castable T v (.integral n) = false
    ∧ is_constexpr_float_castable T v (.enumeration e) = false := by
  refine ⟨?_, ?_, ?_, rfl, rfl⟩ <;>
    simp only [is_constexpr_float_castable, is_constexpr_float_castable_,
      wrap_of_in_range _ _ hv, cpp_le_numeric_limits_max _ _ _ hv, decide_eq_true_eq] <;>
    simp [numeric_limits_max, uint16_t, uint32_t, uint64_t, Width.bits]

/-- C6 at `bear<int64_t>::porridge::COOKED_IN_A_TOKAMAK`. -/
theorem constexpr_float_castable_iff_le_bound_witness :
    in_range (porridge int64_t).underlying (COOKED_IN_A_TOKAMAK int64_t)
    ∧ ((is_constexpr_float_castable (porridge int64_t) (COOKED_IN_A_TOKAMAK int64_t)
          (.floating .float) = true ↔ COOKED_IN_A_TOKAMAK int64_t ≤ 2 ^ 16 - 1)
      ∧ (is_constexpr_float_castable (porridge int64_t) (COOKED_IN_A_TOKAMAK int64_t)
          (.floating .double) = true ↔ COOKED_IN_A_TOKAMAK int64_t ≤ 2 ^ 32 - 1)
      ∧ (is_constexpr_float_castable (porridge int64_t) (COOKED_IN_A_TOKAMAK int64_t)
          (.floating .long_double) = true ↔ COOKED_IN_A_TOKAMAK int64_t ≤ 2 ^ 64 - 1)
      ∧ is_constexpr_float_castable (porridge int64_t) (COOKED_IN_A_TOKAMAK int64_t)
          (.integral c_int) = false
      ∧ is_constexpr_float_castable (porridge int64_t) (COOKED_IN_A_TOKAMAK int64_t)
          (.enumeration bender) = false) :=
  ⟨by decide,
    constexpr_float_castable_iff_le_bound (porridge int64_t) (COOKED_IN_A_TOKAMAK int64_t)
      c_int bender (by decide)⟩

/-- For constants that are not negative the per-value floating rule only errs by rejecting:
an accepted constant has at most 24 significant bits for `float` and at most 53 for
`double`. -/
theorem is_constexpr_float_castable_conservative_of_nonneg (I : IntTy) (v : Int)
    (hv : in_range I v) (h0 : 0 ≤ v) :
    (is_constexpr_float_castable_ I v .float = true → v ≤ 2 ^ 24)
    ∧ (is_constexpr_float_castable_ I v .double = true → v ≤ 2 ^ 53) := by
  constructor <;> intro h <;>
    simp only [is_constexpr_float_castable_, cpp_le_numeric_limits_max _ _ _ hv,
      decide_eq_true_eq] at h <;>
    simp [numeric_limits_max, uint16_t, uint32_t, Width.bits] at h <;> omega

/-- C8, evaluated at the failing input.  For `Int = int32_t` and `v = -16777217 = -(2 ^ 24 + 1)`
the rule `is_constexpr_float_castable_<Int, v, float>` is true, yet `|v| > 2 ^ 24` and `v` is
not representable in single precision: the conversion to `float` gives `-16777216`, and the
conversion back returns that, not `v`.  Likewise `is_constexpr_float_castable_<int64_t, v,
double>` is true for `v = -(2 ^ 53 + 1)`, which converts to the `double` `-(2 ^ 53)`. -/
theorem constexpr_float_rule_accepts_inexact_negative :
    (in_range int32_t (-16777217)
      ∧ is_constexpr_float_castable_ int32_t (-16777217) .float = true
      ∧ ¬ ((-16777217 : Int).natAbs ≤ 2 ^ 24)
      ∧ static_cast (.floating .float) (.integral int32_t) (-16777217) = some (-16777216)
      ∧ static_cast (.integral int32_t) (.floating .float) (-16777216) = some (-16777216))
    ∧ (in_range int64_t (-9007199254740993)
      ∧ is_constexpr_float_castable_ int64_t (-9007199254740993) .double = true
      ∧ ¬ ((-9007199254740993 : Int).natAbs ≤ 2 ^ 53)
      ∧ static_cast (.floating .double) (.integral int64_t) (-9007199254740993)
          = some (-9007199254740992)
      ∧ static_cast (.integral int64_t) (.floating .double) (-9007199254740992)
          = some (-9007199254740992)) := by
  decide

/-! ## Rejection at instantiation -/

/-- For an integral host number type `constexpr_enum_helper` gives a `Value` exactly when
`is_constexpr_ok_enum` holds. -/
theorem constexpr_enum_helper_accepted_integral (T : EnumTy) (v : Int) (n : IntTy) :
    accepted (constexpr_enum_helper T v (.integral n))
      = is_constexpr_ok_enum T v (.integral n) := by
  unfold constexpr_enum_helper
  cases is_constexpr_ok_enum T v (.integral n) with
  | false => rfl
  | true =>
    cases hs : is_scoped_enum (.enumeration T) <;>
      simp [unchecked_enum_helper.CastToLuaNumber, unchecked_enum_helper.CastToLuaNumber_type,
        static_cast, hs, accepted]

/-- A constant that fails `is_constexpr_ok_enum` is rejected by the `static_assert` of
`constexpr_enum_helper`, for every host number type. -/
theorem constexpr_enum_helper_rejected (T : EnumTy) (v : Int) (N : CType)
    (h : is_constexpr_ok_enum T v N = false) :
    constexpr_enum_helper T v N
      = .error "this scoped enumeration value is not compatible with luabind" := by
  simp [constexpr_enum_helper, h]

/-- C9, evaluated at the failing input.  For `bear<unsigned>::porridge::COOKED_IN_A_TOKAMAK`
`= 2 ^ 32 - 1` and the host number type `double`, `is_constexpr_ok_enum` is true, as the
header asserts, yet `constexpr_enum_helper` yields no `Value`: the scoped `CastToLuaNumber`
returns `int`, and `4294967295.0` is outside the range of `int`, so the initialiser is not a
constant expression.  Likewise the constant `2 ^ 31` of `bear<int64_t>::porridge`, whose
type fails the whole-type rule against `double` and which passes the per-value floating
rule, gets no `Value`. -/
theorem constexpr_helper_no_value_for_accepted :
    (in_range (porridge uint32_t).underlying (COOKED_IN_A_TOKAMAK uint32_t)
      ∧ is_constexpr_ok_enum (porridge uint32_t) (COOKED_IN_A_TOKAMAK uint32_t)
          (.floating .double) = true
      ∧ constexpr_enum_helper (porridge uint32_t) (COOKED_IN_A_TOKAMAK uint32_t)
          (.floating .double) = .error "the initializer of Value is not a constant expression"
      ∧ accepted (constexpr_enum_helper (porridge uint32_t) (COOKED_IN_A_TOKAMAK uint32_t)
          (.floating .double)) = false)
    ∧ (in_range (porridge int64_t).underlying (2 ^ 31)
      ∧ is_ok_enum (porridge int64_t) (.floating .double) = false
      ∧ is_constexpr_float_castable (porridge int64_t) (2 ^ 31) (.floating .double) = true
      ∧ accepted (constexpr_enum_helper (porridge int64_t) (2 ^ 31) (.floating .double))
          = false) := by
  refine ⟨⟨by decide, by decide, rfl, by decide⟩, by decide, by decide, by decide, by decide⟩

/-- C10 as stated fails.  For the classic enumeration `tests::bender` and the host number type
`int`, `is_ok_enum` is false, and `enum_helper<bender, int>` is not rejected: it provides
the unchecked casts. -/
theorem enum_helper_classic_not_rejected :
    ¬ (is_ok_enum bender (.integral c_int) = false →
        accepted (enum_helper bender (.integral c_int)) = false) := by
  decide

/-- C10, amended.  `enum_helper<T, N>` is rejected exactly when `T` is a scoped enumeration and
`is_ok_enum<T, N>` is false; in every other case, so for every classic enumeration whatever
`is_ok_enum<T, N>` says, it is `unchecked_enum_helper<T, N>` with its two casts. -/
theorem enum_helper_rejected_iff_scoped (T : EnumTy) (N : CType) :
    (accepted (enum_helper T N) = false ↔ (T.enum_class = true ∧ is_ok_enum T N = false))
    ∧ (accepted (enum_helper T N) = true ↔ enum_helper T N = .ok ⟨T, N⟩) := by
  obtain ⟨c, U⟩ := T
  cases c <;> cases h : is_ok_enum ⟨_, U⟩ N <;>
    simp [enum_helper, is_scoped_enum, is_enum, is_convertible_to_int, accepted, h]

/-! ## The enumeration over `uint64_t` against `float` -/

/-- C11.  For a scoped enumeration `T` over `uint64_t` and the host number type `float`:
`is_ok_enum<T, float>` is false, `is_constexpr_ok_enum<T, T(0), float>` is true, and
`is_constexpr_ok_enum<T, T(2 ^ 64 - 1), float>` is false. -/
theorem uint64_enum_against_float :
    is_ok_enum (porridge uint64_t) (.floating .float) = false
    ∧ in_range (porridge uint64_t).underlying SUPERFLUID_HELIUM
    ∧ is_constexpr_ok_enum (porridge uint64_t) SUPERFLUID_HELIUM (.floating .float) = true
    ∧ in_range (porridge uint64_t).underlying (COOKED_IN_A_TOKAMAK uint64_t)
    ∧ COOKED_IN_A_TOKAMAK uint64_t = 2 ^ 64 - 1
    ∧ is_constexpr_ok_enum (porridge uint64_t) (COOKED_IN_A_TOKAMAK uint64_t)
        (.floating .float) = false := by
  decide

/-! ## The number exposed to the host -/

/-- C17, evaluated at the failing input.  For `bear<unsigned>::porridge::COOKED_IN_A_TOKAMAK`
`= 4294967295` and the host number type `int64_t` the whole-type rule holds, so
`is_constexpr_ok_enum` is true, yet `constexpr_enum_helper<..., int64_t>::Value` is `-1`:
the scoped `CastToLuaNumber` returns `int`.  Likewise `Value` is `0` for the constant
`2 ^ 32` of `bear<int64_t>::porridge` against `int64_t`. -/
theorem constexpr_value_differs_from_constant :
    (in_range (porridge uint32_t).underlying (COOKED_IN_A_TOKAMAK uint32_t)
      ∧ COOKED_IN_A_TOKAMAK uint32_t = 4294967295
      ∧ is_ok_enum (porridge uint32_t) (.integral int64_t) = true
      ∧ is_constexpr_ok_enum (porridge uint32_t) (COOKED_IN_A_TOKAMAK uint32_t)
          (.integral int64_t) = true
      ∧ constexpr_enum_helper (porridge uint32_t) (COOKED_IN_A_TOKAMAK uint32_t)
          (.integral int64_t) = .ok (-1))
    ∧ (in_range (porridge int64_t).underlying (2 ^ 32)
      ∧ is_constexpr_ok_enum (porridge int64_t) (2 ^ 32) (.integral int64_t) = true
      ∧ constexpr_enum_helper (porridge int64_t) (2 ^ 32) (.integral int64_t) = .ok 0) := by
  refine ⟨⟨by decide, by decide, by decide, by decide, rfl⟩, by decide, by decide, rfl⟩

/-! ## Soundness of the size rule for floating host types -/

/-- A number below `2 ^ p` has at most `p` binary digits. -/
theorem bit_length_aux_le (k : Nat) : ∀ n p : Nat, n < 2 ^ p → bit_length_aux k n ≤ p := by
  induction k with
  | zero => intro n p _; simp [bit_length_aux]
  | succ k ih =>
    intro n p h
    unfold bit_length_aux
    by_cases h0 : n = 0
    · simp [h0]
    · simp only [h0, if_false]
      cases p with
      | zero => simp at h; omega
      | succ p =>
        have : n / 2 < 2 ^ p := by
          rw [pow_succ] at h
          omega
        have := ih (n / 2) p this
        omega

/-- An integer with at most `p` significant bits is its own rounding to `p` bits. -/
theorem round_nearest_even_of_lt (p : Nat) (x : Int) (h : x.natAbs < 2 ^ p) :
    round_nearest_even p x = x := by
  unfold round_nearest_even
  have := bit_length_aux_le x.natAbs x.natAbs p h
  simp [bit_length, this]

/-- C18.  For every integral type `I` of 1, 2, 4 or 8 bytes, signed or unsigned, and every
floating type `F` among `float` (4 bytes, 24 significand bits), `double` (8 bytes, 53) and
`long double` (16 bytes, 64): if `is_float_castable_<I, F>` is true, then every value `v` of
`I` satisfies `|v| ≤ 2 ^ significand_bits`, and the conversion to `F` and back returns
`v`. -/
theorem float_castable_sound (I : IntTy) (F : FloatTy) (v : Int) (hv : in_range I v)
    (h : is_float_castable_ (.integral I) (.floating F) = true) :
    v.natAbs ≤ 2 ^ F.precision
    ∧ (static_cast (.floating F) (.integral I) v).bind (static_cast (.integral I) (.floating F))
        = some v := by
  have hlt : v.natAbs < 2 ^ F.precision := by
    obtain ⟨w, s⟩ := I
    unfold in_range at hv
    cases w <;> cases s <;> cases F <;>
      simp [is_float_castable_, sizeof, Width.bytes] at h <;>
      simp [numeric_limits_max, numeric_limits_min, Width.bits, FloatTy.precision] at hv ⊢ <;>
      omega
  refine ⟨le_of_lt hlt, ?_⟩
  simp [static_cast, round_nearest_even_of_lt _ _ hlt, hv]

/-- C18 at the maximum of `uint32_t` against `double`. -/
theorem float_castable_sound_witness :
    in_range uint32_t 4294967295
    ∧ is_float_castable_ (.integral uint32_t) (.floating .double) = true
    ∧ ((4294967295 : Int).natAbs ≤ 2 ^ FloatTy.double.precision
      ∧ (static_cast (.floating .double) (.integral uint32_t) 4294967295).bind
          (static_cast (.integral uint32_t) (.floating .double)) = some 4294967295) :=
  ⟨by decide, by decide, float_castable_sound uint32_t .double 4294967295 (by decide) (by decide)⟩

/-! ## Per-value rules against whole-type rules -/

/-- C19.  For every scoped enumeration over an integral type `U` and every value `v` of `U`:
if `is_integer_castable<T, n>` is true for an integral `n` then
`is_constexpr_integer_castable<T, v, n>` is true, and if `is_float_castable<T, f>` is true
for a floating `f` then `is_constexpr_float_castable<T, v, f>` is true; hence `is_ok_enum`
implies the disjunction of the two per-value rules, for integral and for floating host
types. -/
theorem per_value_rules_looser (U : IntTy) (v : Int) (n : IntTy) (f : FloatTy)
    (hv : in_range U v) :
    (is_integer_castable ⟨true, U⟩ (.integral n) = true →
        is_constexpr_integer_castable ⟨true, U⟩ v (.integral n) = true)
    ∧ (is_float_castable ⟨true, U⟩ (.floating f) = true →
        is_constexpr_float_castable ⟨true, U⟩ v (.floating f) = true)
    ∧ (is_ok_enum ⟨true, U⟩ (.integral n) = true →
        (is_constexpr_integer_castable ⟨true, U⟩ v (.integral n)
          || is_constexpr_float_castable ⟨true, U⟩ v (.integral n)) = true)
    ∧ (is_ok_enum ⟨true, U⟩ (.floating f) = true →
        (is_constexpr_integer_castable ⟨true, U⟩ v (.floating f)
          || is_constexpr_float_castable ⟨true, U⟩ v (.floating f)) = true) := by
  have hint : is_integer_castable ⟨true, U⟩ (.integral n) = true →
      is_constexpr_integer_castable ⟨true, U⟩ v (.integral n) = true := by
    intro h
    have hle : v ≤ numeric_limits_max n := by
      obtain ⟨wu, su⟩ := U
      obtain ⟨wn, sn⟩ := n
      unfold in_range at hv
      cases wu <;> cases su <;> cases wn <;> cases sn <;>
        simp [is_integer_castable, is_integer_castable_, is_integral, is_scoped_enum, is_enum,
          is_convertible_to_int, sizeof, is_signed, Width.bytes] at h <;>
        simp [numeric_limits_max, numeric_limits_min, Width.bits] at hv ⊢ <;> omega
    unfold is_constexpr_integer_castable is_constexpr_integer_castable_
    simp only [wrap_of_in_range _ _ hv, ite_self, cpp_le_numeric_limits_max _ _ _ hv,
      decide_eq_true_eq]
    exact hle
  have hflt : is_float_castable ⟨true, U⟩ (.floating f) = true →
      is_constexpr_float_castable ⟨true, U⟩ v (.floating f) = true := by
    intro h
    cases f <;>
      simp only [is_constexpr_float_castable, is_constexpr_float_castable_,
        wrap_of_in_range _ _ hv, cpp_le_numeric_limits_max _ _ _ hv, decide_eq_true_eq] <;>
      obtain ⟨wu, su⟩ := U <;>
      unfold in_range at hv <;>
      cases wu <;> cases su <;>
        simp [is_float_castable, is_float_castable_, is_floating_point, sizeof,
          Width.bytes] at h <;>
        simp [numeric_limits_max, numeric_limits_min, Width.bits, uint16_t, uint32_t,
          uint64_t] at hv ⊢ <;> omega
  refine ⟨hint, hflt, ?_, ?_⟩
  · intro h
    have h1 : is_integer_castable ⟨true, U⟩ (.integral n) = true := by
      simpa [is_ok_enum, is_float_castable, is_floating_point] using h
    simp [hint h1]
  · intro h
    have h1 : is_float_castable ⟨true, U⟩ (.floating f) = true := by
      simpa [is_ok_enum, is_integer_castable, is_integral] using h
    simp [hflt h1]

/-- C20.  For every integral type `U` and every negative value `v` of `U` (so `U` is signed):
`is_constexpr_integer_castable_<U, v, n>` is true for every integral `n`,
`is_constexpr_float_castable_<U, v, f>` is true for every floating `f`, and
`is_constexpr_ok_enum` accepts `v` as a constant of the scoped enumeration over `U` for
every integral and every floating host number type. -/
theorem per_value_rules_accept_negative (U : IntTy) (v : Int) (n : IntTy) (f : FloatTy)
    (hv : in_range U v) (hneg : v < 0) :
    U.signed = true
    ∧ is_constexpr_integer_castable_ U v n = true
    ∧ is_constexpr_float_castable_ U v f = true
    ∧ is_constexpr_ok_enum ⟨true, U⟩ v (.integral n) = true
    ∧ is_constexpr_ok_enum ⟨true, U⟩ v (.floating f) = true := by
  have hmax : ∀ m : IntTy, v ≤ numeric_limits_max m := by
    intro m
    obtain ⟨wm, sm⟩ := m
    cases wm <;> cases sm <;> simp [numeric_limits_max, Width.bits] <;> omega
  have hsigned : U.signed = true := by
    obtain ⟨wu, su⟩ := U
    unfold in_range at hv
    cases su
    · simp [numeric_limits_min] at hv
      omega
    · rfl
  have hi : is_constexpr_integer_castable_ U v n = true := by
    simp only [is_constexpr_integer_castable_, cpp_le_numeric_limits_max _ _ _ hv,
      decide_eq_true_eq]
    exact hmax n
  have hf : is_constexpr_float_castable_ U v f = true := by
    cases f <;>
      simp only [is_constexpr_float_castable_, cpp_le_numeric_limits_max _ _ _ hv,
        decide_eq_true_eq] <;>
      exact hmax _
  refine ⟨hsigned, hi, hf, ?_, ?_⟩
  · simp [is_constexpr_ok_enum, is_constexpr_integer_castable, is_scoped_enum, is_enum,
      is_convertible_to_int, wrap_of_in_range _ _ hv, hi]
  · simp [is_constexpr_ok_enum, is_constexpr_float_castable, wrap_of_in_range _ _ hv, hf]

/-- C19 at the value `12345` of an enumeration over `int16_t`, against `int32_t` and
`float`. -/
theorem per_value_rules_looser_witness :
    in_range int16_t 12345
    ∧ is_integer_castable ⟨true, int16_t⟩ (.integral int32_t) = true
    ∧ is_float_castable ⟨true, int16_t⟩ (.floating .float) = true
    ∧ is_constexpr_integer_castable ⟨true, int16_t⟩ 12345 (.integral int32_t) = true
    ∧ is_constexpr_float_castable ⟨true, int16_t⟩ 12345 (.floating .float) = true :=
  ⟨by decide, by decide, by decide,
    (per_value_rules_looser int16_t 12345 int32_t .float (by decide)).1 (by decide),
    (per_value_rules_looser int16_t 12345 int32_t .float (by decide)).2.1 (by decide)⟩

/-- C20 at the value `-(2 ^ 40)` of `int64_t`, against `uint8_t` and `float`. -/
theorem per_value_rules_accept_negative_witness :
    in_range int64_t (-(2 ^ 40))
    ∧ (-(2 ^ 40) : Int) < 0
    ∧ (int64_t.signed = true
      ∧ is_constexpr_integer_castable_ int64_t (-(2 ^ 40)) uint8_t = true
      ∧ is_constexpr_float_castable_ int64_t (-(2 ^ 40)) .float = true
      ∧ is_constexpr_ok_enum ⟨true, int64_t⟩ (-(2 ^ 40)) (.integral uint8_t) = true
      ∧ is_constexpr_ok_enum ⟨true, int64_t⟩ (-(2 ^ 40)) (.floating .float) = true) :=
  ⟨by decide, by decide,
    per_value_rules_accept_negative int64_t (-(2 ^ 40)) uint8_t .float (by decide) (by decide)⟩

/-! ## The whole-type integer rule as a preorder -/

/-- C21.  `is_integer_castable_` is a preorder on the integral types: `is_integer_castable_<A, A>`
is true for every integral type `A`, and `is_integer_castable_<A, B>` together with
`is_integer_castable_<B, C>` gives `is_integer_castable_<A, C>`.  An enumeration whose
underlying type is the host number type is always accepted: for a scoped one `is_ok_enum`
holds; for every one, classic or scoped, `enum_helper` is not rejected, and every value
passes `is_constexpr_ok_enum` and gets its `Value`. -/
theorem integer_castable_preorder (A B C : IntTy) (T : EnumTy) (v : Int)
    (hAB : is_integer_castable_ (.integral A) (.integral B) = true)
    (hBC : is_integer_castable_ (.integral B) (.integral C) = true)
    (hv : in_range T.underlying v) :
    is_integer_castable_ (.integral A) (.integral A) = true
    ∧ is_integer_castable_ (.integral A) (.integral C) = true
    ∧ is_ok_enum ⟨true, A⟩ (.integral A) = true
    ∧ accepted (enum_helper T (.integral T.underlying)) = true
    ∧ is_constexpr_ok_enum T v (.integral T.underlying) = true
    ∧ accepted (constexpr_enum_helper T v (.integral T.underlying)) = true := by
  have hrefl : ∀ X : IntTy, is_integer_castable_ (.integral X) (.integral X) = true := by
    intro X
    simp [is_integer_castable_]
  have hok : ∀ X : IntTy, is_ok_enum ⟨true, X⟩ (.integral X) = true := by
    intro X
    simp [is_ok_enum, is_integer_castable, is_integral, is_scoped_enum, is_enum,
      is_convertible_to_int, hrefl X]
  have hper : is_constexpr_integer_castable T v (.integral T.underlying) = true := by
    unfold is_constexpr_integer_castable is_constexpr_integer_castable_
    simp only [wrap_of_in_range _ _ hv, ite_self, cpp_le_numeric_limits_max _ _ _ hv,
      decide_eq_true_eq]
    exact hv.2
  have hcok : is_constexpr_ok_enum T v (.integral T.underlying) = true := by
    simp [is_constexpr_ok_enum, hper]
  refine ⟨hrefl A, ?_, hok A, ?_, hcok, ?_⟩
  · simp only [is_integer_castable_, sizeof, is_signed, Bool.or_eq_true, Bool.and_eq_true,
      decide_eq_true_eq, beq_iff_eq] at hAB hBC ⊢
    rcases hAB with h1 | ⟨h1, s1⟩ <;> rcases hBC with h2 | ⟨h2, s2⟩
    · exact Or.inl (by omega)
    · exact Or.inl (by omega)
    · exact Or.inl (by omega)
    · exact Or.inr ⟨by omega, s1.trans s2⟩
  · obtain ⟨c, U⟩ := T
    cases c
    · simp [enum_helper, is_scoped_enum, is_enum, is_convertible_to_int, accepted]
    · simp [enum_helper, is_scoped_enum, is_enum, is_convertible_to_int, accepted, hok U]
  · rw [constexpr_enum_helper_accepted_integral]
    exact hcok

/-- C21 at `uint8_t`, `int16_t`, `int32_t` and at `bear<int>::porridge::GOLDILOCKS`. -/
theorem integer_castable_preorder_witness :
    is_integer_castable_ (.integral uint8_t) (.integral int16_t) = true
    ∧ is_integer_castable_ (.integral int16_t) (.integral int32_t) = true
    ∧ in_range (porridge int32_t).underlying GOLDILOCKS
    ∧ (is_integer_castable_ (.integral uint8_t) (.integral uint8_t) = true
      ∧ is_integer_castable_ (.integral uint8_t) (.integral int32_t) = true
      ∧ is_ok_enum ⟨true, uint8_t⟩ (.integral uint8_t) = true
      ∧ accepted (enum_helper (porridge int32_t) (.integral (porridge int32_t).underlying))
          = true
      ∧ is_constexpr_ok_enum (porridge int32_t) GOLDILOCKS
          (.integral (porridge int32_t).underlying) = true
      ∧ accepted (constexpr_enum_helper (porridge int32_t) GOLDILOCKS
          (.integral (porridge int32_t).underlying)) = true) :=
  ⟨by decide, by decide, by decide,
    integer_castable_preorder uint8_t int16_t int32_t (porridge int32_t) GOLDILOCKS
      (by decide) (by decide) (by decide)⟩

end detail

namespace test_policies

open detail (in_range c_int)

/-! ## Out-values -/

/-- C12 as stated fails.  For `a = 65536` and the pointee `x = 65536` the product `x * a` is
not representable as `int`: the call of `member_out_val` bound with `out_value<3>` does not
return `x * a`. -/
theorem member_out_val_overflow :
    ¬ (bound_member_out_val 0 [.userdata 1, .number 65536, .number 65536]
        = some [.number (65536 * 65536)]) := by
  decide

/-- C12, amended.  For all `int` values `a` and `x`: `member_out_val(a, x)` bound with
`out_value<3>` returns `x * a` when the product is representable as `int`, and has no
result otherwise; `member_pure_out_val(a)` bound with `pure_out_value<3>` takes no host
argument for the third slot and returns `2 * a` when that is representable as `int`,
whatever the pointee held before; `out_val()` bound with `pure_out_value<1>` returns `3`. -/
theorem out_value_results (this : Nat) (a x junk : Int) (ha : in_range c_int a)
    (hx : in_range c_int x) :
    bound_member_out_val junk [.userdata this, .number a, .number x]
        = (if in_range c_int (x * a) then some [.number (x * a)] else none)
    ∧ bound_member_pure_out_val junk [.userdata this, .number a]
        = (if in_range c_int (2 * a) then some [.number (2 * a)] else none)
    ∧ bound_out_val junk [] = some [.number 3] := by
  refine ⟨?_, ?_, ?_⟩
  · by_cases h : in_range c_int (x * a) <;>
      simp [bound_member_out_val, call_adapter, marshal, ha, hx, member_out_val, h]
  · have hc : a * 2 = 2 * a := Int.mul_comm a 2
    by_cases h : in_range c_int (2 * a) <;>
      simp [bound_member_pure_out_val, call_adapter, marshal, ha, member_pure_out_val, hc, h]
  · rfl

/-- C12 at the arguments of the script: `a:member_out_val(3,2)` and
`a:member_pure_out_val(3)`. -/
theorem out_value_results_witness :
    in_range c_int 3 ∧ in_range c_int 2
    ∧ bound_member_out_val 0 [.userdata 1, .number 3, .number 2] = some [.number 6]
    ∧ bound_member_pure_out_val 0 [.userdata 1, .number 3] = some [.number 6]
    ∧ bound_out_val 0 [] = some [.number 3] :=
  ⟨by decide, by decide, out_value_results 1 3 2 0 (by decide) (by decide)⟩

/-! ## The host collector -/

/-- Destroying a list of objects appends their addresses to the log of destructor runs. -/
theorem destroyed_foldl_destroy (ps : List Nat) :
    ∀ n : Native, (ps.foldl (fun n p => n.destroy p) n).destroyed = n.destroyed ++ ps := by
  induction ps with
  | nil => intro n; simp
  | cons p ps ih =>
    intro n
    rw [List.foldl_cons, ih]
    simp [Native.destroy]

/-- Destroying a list of objects lowers `count` by the length of the list. -/
theorem count_foldl_destroy (ps : List Nat) :
    ∀ n : Native, (ps.foldl (fun n p => n.destroy p) n).count = n.count - ps.length := by
  induction ps with
  | nil => intro n; simp
  | cons p ps ih =>
    intro n
    rw [List.foldl_cons, ih]
    simp only [Native.destroy, List.length_cons]
    push_cast
    omega

/-- A collection pass appends the released addresses to the log of destructor runs and
lowers `count` by their number. -/
theorem collectgarbage_native (lag : Bool) (s : Bridge) :
    (collectgarbage lag s).native.destroyed = s.native.destroyed ++ s.freed lag
    ∧ (collectgarbage lag s).count = s.count - (s.freed lag).length := by
  simp [collectgarbage, Bridge.count, destroyed_foldl_destroy, count_foldl_destroy]

/-- A collection pass leaves the host variables alone. -/
theorem collectgarbage_roots (lag : Bool) (s : Bridge) :
    (collectgarbage lag s).roots = s.roots := rfl

/-- What a collection pass releases is owned by a Representative that does not survive. -/
theorem freed_owning (lag : Bool) (s : Bridge) (q : Nat) (h : q ∈ s.freed lag) :
    ∃ r ∈ s.registry, r.address = q ∧ r.owning = true ∧ s.survives lag r = false := by
  simp only [Bridge.freed, List.mem_map, List.mem_filter, Bool.and_eq_true,
    Bool.not_eq_true'] at h
  obtain ⟨r, ⟨hr, hs, ho⟩, rfl⟩ := h
  exact ⟨r, hr, rfl, ho, hs⟩

/-- A collection pass creates no Representative. -/
theorem collectgarbage_registry_subset (lag : Bool) (s : Bridge) (r : Representative)
    (h : r ∈ (collectgarbage lag s).registry) : r ∈ s.registry := by
  simp only [collectgarbage, List.mem_filter] at h
  exact h.1

/-- Collection passes never release a value that no Representative owns. -/
theorem collect_passes_not_owning (p : Nat) (lags : List Bool) :
    ∀ s : Bridge, (∀ r ∈ s.registry, r.address = p → r.owning = false) →
      (collect_passes lags s).native.destroyed.count p = s.native.destroyed.count p := by
  induction lags with
  | nil => intro s _; rfl
  | cons lag lags ih =>
    intro s h
    have h2 : ∀ r ∈ (collectgarbage lag s).registry, r.address = p → r.owning = false :=
      fun r hr => h r (collectgarbage_registry_subset lag s r hr)
    have hnot : p ∉ s.freed lag := by
      intro hp
      obtain ⟨r, hr, hrp, ho, _⟩ := freed_owning lag s p hp
      rw [h r hr hrp] at ho
      exact Bool.false_ne_true ho
    have := ih (collectgarbage lag s) h2
    simp only [collect_passes, List.foldl_cons] at this ⊢
    rw [this, (collectgarbage_native lag s).1, List.count_append,
      List.count_eq_zero_of_not_mem hnot]
    simp

/-- Collection passes leave the native side alone when no Representative owns its value. -/
theorem collect_passes_native_of_not_owning (lags : List Bool) :
    ∀ s : Bridge, (∀ r ∈ s.registry, r.owning = false) →
      (collect_passes lags s).native = s.native := by
  induction lags with
  | nil => intro s _; rfl
  | cons lag lags ih =>
    intro s h
    have h2 : ∀ r ∈ (collectgarbage lag s).registry, r.owning = false :=
      fun r hr => h r (collectgarbage_registry_subset lag s r hr)
    have h3 : s.freed lag = [] := by
      unfold Bridge.freed
      rw [List.map_eq_nil_iff, List.filter_eq_nil_iff]
      intro r hr
      simp [h r hr]
    have := ih (collectgarbage lag s) h2
    simp only [collect_passes, List.foldl_cons] at this ⊢
    rw [this]
    simp [collectgarbage, h3]

/-- C13.  In every bridge state a call of `copy_val` or `copy_val_const`, bound with
`copy_policy<0>`, raises `count` by exactly one and adds one object, a duplicate of
`global`, leaving the objects that exist untouched.  From a bridge without Representatives
and edges, after `a = copy_val()`, `b = copy_val_const()`, `a = nil`, `b = nil`, one
collection pass releases the two copies and `count` is back at its value before the
calls. -/
theorem copy_policy_count (t s : Bridge) (x : HostVar) (lag : Bool) (hreg : s.registry = [])
    (hedges : s.edges = []) :
    (stmt_copy_val x t).count = t.count + 1
    ∧ (stmt_copy_val_const x t).count = t.count + 1
    ∧ (stmt_copy_val x t).native.objects
        = t.native.objects ++ [⟨t.native.fresh, t.native.name_of global_address⟩]
    ∧ (stmt_copy_val_const x t).native.objects
        = t.native.objects ++ [⟨t.native.fresh, t.native.name_of global_address⟩]
    ∧ (script_copy s).count = s.count + 2
    ∧ (collectgarbage lag (script_copy s)).count = s.count
    ∧ (collectgarbage lag (script_copy s)).registry = []
    ∧ (collectgarbage lag (script_copy s)).native.destroyed
        = s.native.destroyed ++ [s.native.fresh, s.native.fresh + 1] := by
  have step : ∀ u : Bridge, ∀ p : Nat, (Copied p u).2.native = (u.native.copy_construct p).2 := by
    intro u p
    simp only [Copied, Bridge.wrap]
    split <;> rfl
  refine ⟨?_, ?_, ?_, ?_, ?_, ?_, ?_, ?_⟩
  · simp [stmt_copy_val, Bridge.count, Bridge.assign, step, Native.copy_construct,
      Native.construct]
  · simp [stmt_copy_val_const, Bridge.count, Bridge.assign, step, Native.copy_construct,
      Native.construct]
  · simp [stmt_copy_val, Bridge.assign, step, Native.copy_construct, Native.construct, copy_val]
  · simp [stmt_copy_val_const, Bridge.assign, step, Native.copy_construct, Native.construct,
      copy_val_const]
  · simp [script_copy, stmt_copy_val, stmt_copy_val_const, Bridge.count, Bridge.assign, step,
      Native.copy_construct, Native.construct]
    omega
  all_goals
    obtain ⟨native, registry, edges, globals⟩ := s
    simp only at hreg hedges
    subst hreg hedges
    cases lag <;>
    simp [collectgarbage, script_copy, stmt_copy_val, stmt_copy_val_const, Copied, Bridge.wrap,
      Bridge.assign, Bridge.count, Bridge.freed, Bridge.survives, Bridge.reachable, Bridge.roots,
      Bridge.pinned, mark, mark_iter, HostValue.address?, Native.copy_construct, Native.construct,
      Native.destroy]

/-- C13 at the start of `test_main`: only `global` is left. -/
theorem copy_policy_count_witness :
    Bridge.start.registry = [] ∧ Bridge.start.edges = []
    ∧ (stmt_copy_val .a Bridge.start).count = 2
    ∧ (script_copy Bridge.start).count = 3
    ∧ (collectgarbage true (script_copy Bridge.start)).count = 1
    ∧ (collectgarbage true (script_copy Bridge.start)).native.objects = [⟨global_address, ""⟩] :=
  ⟨rfl, rfl, (copy_policy_count Bridge.start Bridge.start .a true rfl rfl).1,
    (copy_policy_count Bridge.start Bridge.start .a true rfl rfl).2.2.2.2.1,
    (copy_policy_count Bridge.start Bridge.start .a true rfl rfl).2.2.2.2.2.1, by decide⟩

/-! ## The script of `test_main` -/

/-- Every `TEST_CHECK` and every `assert` of the script holds in the embedding when the
collection pass of line 221, the one pass after `b = nil` that the check of line 223 relies
on, does not lag, whatever the other passes do about lagging and whatever a pure out-value
pointee holds before the call. -/
theorem test_main_checks (l1 l2 l4 l5 l6 l7 : Bool) (junk : Int) :
    test_main l1 l2 false l4 l5 l6 l7 junk
      = some ([1, 2, 3, 1, 2, 1, 2, 2, 1, 2, 3, 2, 1], .number 3, [.number 6], [.number 6]) := by
  cases l1 <;> cases l2 <;> cases l4 <;> cases l5 <;> cases l6 <;> cases l7 <;> rfl

/-- When the collection pass of line 221 lags, the object that `self_ref` returned is still
there at the checks of lines 223 and 227, which read `2` and `3`; the next pass releases
it. -/
theorem test_main_lagging_pass (l1 l2 l4 l5 l6 l7 : Bool) (junk : Int) :
    test_main l1 l2 true l4 l5 l6 l7 junk
      = some ([1, 2, 3, 1, 2, 2, 3, 2, 1, 2, 3, 2, 1], .number 3, [.number 6], [.number 6]) := by
  cases l1 <;> cases l2 <;> cases l4 <;> cases l5 <;> cases l6 <;> cases l7 <;> rfl

end test_policies
end luabind
